import Mathlib

/-!
Shallow embedding of the video-agreement upload backend.

The repository has two variants of the server:
  * `src/index.js` — memory-storage variant (multer memoryStorage, fire-and-forget
    permission grant, MIME resolver defaulting to video/mp4 on unknown extensions);
  * `src/unnamed/part_000` — disk-storage variant (multer disk `dest`, awaited
    permission grant, MIME resolver throwing on unknown extensions, temp-file
    cleanup on the success and catch paths).

Definitions below are translated from those sources.  The remote store client
(Google Drive) and the percent-decoder are external collaborators and are
modelled as injected stubs; the call log of a request is recorded in a `Trace`.
-/

namespace VideoAgreement

/-- The JS whitespace class `\s` restricted to the ASCII range used here. -/
def isWs (c : Char) : Bool :=
  c == ' ' || c == '\t' || c == '\n' || c == '\r' || c == '\x0b' || c == '\x0c'

/-- `String.prototype.trim`: drop leading and trailing whitespace. -/
def trimList (l : List Char) : List Char :=
  ((l.dropWhile isWs).reverse.dropWhile isWs).reverse

/-- `s.trim()` from JS, on Lean strings. -/
def jsTrim (s : String) : String :=
  (trimList s.toList).asString

/-- `.replace(/[^a-zA-Z0-9\s]/g, '')`: keep letters, digits and whitespace. -/
def removeNonAlnum (l : List Char) : List Char :=
  l.filter (fun c => c.isAlphanum || isWs c)

/-- Worker for `.replace(/\s+/g, '_')`: the flag says whether we are inside a
whitespace run that has already emitted its underscore. -/
def collapseWsAux : Bool → List Char → List Char
  | _, [] => []
  | inRun, c :: rest =>
    if isWs c then
      (if inRun then [] else ['_']) ++ collapseWsAux true rest
    else
      c :: collapseWsAux false rest

/-- `.replace(/\s+/g, '_')`: collapse each maximal whitespace run to one `_`. -/
def collapseWs (l : List Char) : List Char :=
  collapseWsAux false l

/-- The sanitization used by the sources (src/index.js line 105, part_000 line 210):
`personName.trim().replace(/[^a-zA-Z0-9\s]/g, '').replace(/\s+/g, '_')` —
trim first, then remove, then collapse. -/
def sanitize (s : String) : String :=
  (collapseWs (removeNonAlnum (trimList s.toList))).asString

/-- The basename of a path: everything after the last `/` (Node `path` posix). -/
def basenameChars (l : List Char) : List Char :=
  (l.reverse.takeWhile (fun c => c != '/')).reverse

/-- Node `path.extname`: the suffix of the basename from its last dot, empty when
there is no dot, when the only dot leads the basename, or for the basename `..`. -/
def extname (s : String) : String :=
  let b := basenameChars s.toList
  if b = ['.', '.'] then ""
  else
    let sfx := b.reverse.takeWhile (fun c => c != '.')
    if sfx.length = b.length then ""
    else if b.length - sfx.length - 1 = 0 then ""
    else ('.' :: sfx.reverse).asString

/-- `String.prototype.toLowerCase` on the ASCII range. -/
def lowerStr (s : String) : String :=
  (s.toList.map Char.toLower).asString

/-- JS `s.startsWith(pre)`. -/
def jsStartsWith (s pre : String) : Bool :=
  s.toList.take pre.toList.length = pre.toList

/-- The fixed extension table shared by both variants of `getCorrectMimeType`. -/
def mimeTypes (ext : String) : Option String :=
  if ext = ".mp4" then some "video/mp4"
  else if ext = ".webm" then some "video/webm"
  else if ext = ".mkv" then some "video/x-matroska"
  else if ext = ".avi" then some "video/x-msvideo"
  else if ext = ".mov" then some "video/quicktime"
  else if ext = ".wmv" then some "video/x-ms-wmv"
  else if ext = ".flv" then some "video/x-flv"
  else if ext = ".m4v" then some "video/x-m4v"
  else none

/-- `getCorrectMimeType` from src/index.js: `mimeTypes[ext] || 'video/mp4'`,
so an unknown extension silently yields the default `video/mp4`. -/
def getCorrectMimeTypeMem (filename : String) : String :=
  (mimeTypes (lowerStr (extname filename))).getD "video/mp4"

/-- `getCorrectMimeType` from src/unnamed/part_000: throws
`Unsupported video format: ${ext}` when the extension is not in the table. -/
def getCorrectMimeTypeDisk (filename : String) : Except String String :=
  let ext := lowerStr (extname filename)
  match mimeTypes ext with
  | some m => Except.ok m
  | none => Except.error ("Unsupported video format: " ++ ext)

/-- The decomposed server clock at upload time: `toISOString().split('T')[0]`
(UTC date) and `toTimeString().split(' ')[0]` (wall-clock `HH:MM:SS`). -/
structure Clock where
  isoDate : String
  localTime : String
  deriving DecidableEq

/-- `timeStr.replace(/:/g, '-')`. -/
def hyphenTime (t : String) : String :=
  (t.toList.map (fun c => if c = ':' then '-' else c)).asString

/-- `createFormattedFileName` from src/index.js (identical inline in part_000
lines 206–211): `${sanitized}_${dateStr}_${timeStr}${path.extname(originalName)}`. -/
def createFormattedFileName (personName originalName : String) (now : Clock) : String :=
  sanitize personName ++ "_" ++ now.isoDate ++ "_" ++ hyphenTime now.localTime
    ++ extname originalName

/-- Comparison definition, worded as the specification words the sanitization:
remove characters outside the letters/digits/whitespace class, then collapse
whitespace runs to single underscores, then trim — in that order. -/
def claimSanitize (s : String) : String :=
  (trimList (collapseWs (removeNonAlnum s.toList))).asString

/-- The Filename Formatter as the claim describes it, built on `claimSanitize`. -/
def claimFormattedFileName (personName originalName : String) (now : Clock) : String :=
  claimSanitize personName ++ "_" ++ now.isoDate ++ "_" ++ hyphenTime now.localTime
    ++ extname originalName

/-- The guard `!personName || personName.trim() === ''` of the body routes. -/
def missingName (personName : Option String) : Bool :=
  match personName with
  | none => true
  | some p => jsTrim p = ""

/-- The `\w` class of the JS regex engine: letters, digits and underscore. -/
def isWordCh (c : Char) : Bool :=
  c.isAlphanum || c == '_'

/-- The `.` of a JS regex without the dotall flag: any char except the four
line terminators. -/
def dotCh (c : Char) : Bool :=
  c != '\n' && c != '\r' && c != '\u2028' && c != '\u2029'

/-- Consume exactly `n` decimal digits (`\d{n}`), returning the remainder. -/
def digitsN : Nat → List Char → Option (List Char)
  | 0, l => some l
  | _ + 1, [] => none
  | n + 1, c :: r => if c.isDigit then digitsN n r else none

/-- The anchored tail `_\d{4}-\d{2}-\d{2}_\d+\.\w+$` of the person-name
extraction regex of part_000 line 121. -/
def tailPat (l : List Char) : Bool :=
  match l with
  | '_' :: r =>
    match digitsN 4 r with
    | some ('-' :: r2) =>
      match digitsN 2 r2 with
      | some ('-' :: r3) =>
        match digitsN 2 r3 with
        | some ('_' :: r4) =>
          let ds := r4.takeWhile Char.isDigit
          let r5 := r4.dropWhile Char.isDigit
          !ds.isEmpty &&
            (match r5 with
             | '.' :: r6 => !r6.isEmpty && r6.all isWordCh
             | _ => false)
        | _ => false
      | _ => false
    | _ => false
  | _ => false

/-- The lazy group `(.+?)`: the shortest non-empty run of `.`-chars after which
the anchored tail matches the rest of the input. -/
def findLazyName (acc : List Char) : List Char → Option (List Char)
  | [] => none
  | c :: rest =>
    if dotCh c then
      if tailPat rest then some (acc ++ [c])
      else findLazyName (acc ++ [c]) rest
    else none

/-- Group 1 of `originalFileName.match(/^PartnershipDeclaration_(.+?)_\d{4}-\d{2}-\d{2}_\d+\.\w+$/)`
from part_000 line 121, `none` when the filename does not match. -/
def partnershipName (filename : String) : Option String :=
  let l := filename.toList
  let pre := "PartnershipDeclaration_".toList
  if l.take pre.length = pre then
    (findLazyName [] (l.drop pre.length)).map List.asString
  else none

/-- The parsed multipart file as the handlers see it (`req.file`): original
name, (possibly filter-corrected) mimetype, size, and temp path on disk. -/
structure FileInfo where
  originalname : String
  mimetype : String
  size : Nat
  path : String
  deriving DecidableEq

/-- The remote object data selected by `fields: 'id,name,webViewLink,mimeType,size'`. -/
structure DriveFile where
  id : String
  name : String
  webViewLink : String
  mimeType : String
  size : Nat
  deriving DecidableEq

deriving instance DecidableEq for Except

/-- Stubbed Remote Store Client: the outcome of each of its three operations. -/
structure Drive where
  createResult : Except String DriveFile
  permResult : Except String Unit
  updateResult : Except String DriveFile
  deriving DecidableEq

/-- The metadata attached to a `drive.files.create` call. -/
structure FileMeta where
  name : String
  mimeType : String
  deriving DecidableEq

/-- The arguments of a `drive.files.update` call (only the content type is set). -/
structure UpdateCall where
  fileId : String
  mimeType : String
  deriving DecidableEq

/-- Request-scoped log of the externally visible calls a handler made. -/
structure Trace where
  createCalls : List FileMeta
  permCalls : List String
  updateCalls : List UpdateCall
  unlinkCalls : List String
  deriving DecidableEq

/-- The empty call log. -/
def Trace.empty : Trace :=
  ⟨[], [], [], []⟩

/-- The JSON responses the handlers can produce, keyed by route shape. -/
inductive Resp where
  | badRequest (error : String)
  | okUpload (fileId name link mime : String) (size : Nat) (personName uploadDate : String)
  | okSimple (name link : String)
  | okChunked (fileId name link : String)
  | okFix (fileId name mime link : String)
  | notImplemented (error suggestion : String)
  | serverError (details : String)
  deriving DecidableEq

/-- `uploadToGoogleDrive` from src/index.js: one create call; when `makePublic`,
a permission grant is issued fire-and-forget with its failure caught and only
logged, so the returned value never depends on the grant outcome. -/
def uploadToGoogleDrive (drive : Drive) (fileName mimeType : String)
    (makePublic : Bool) : Except String DriveFile × Trace :=
  match drive.createResult with
  | Except.error e => (Except.error e, ⟨[⟨fileName, mimeType⟩], [], [], []⟩)
  | Except.ok df =>
    if makePublic then (Except.ok df, ⟨[⟨fileName, mimeType⟩], [df.id], [], []⟩)
    else (Except.ok df, ⟨[⟨fileName, mimeType⟩], [], [], []⟩)

/-- `POST /upload-video` of src/index.js (memory storage, no temp file):
400 on missing file or missing/blank personName, otherwise resolve the content
type, format the name, upload, and answer 200 or 500. -/
def indexUploadHandler (file : Option FileInfo) (personName : Option String)
    (drive : Drive) (now : Clock) : Resp × Trace :=
  match file with
  | none => (Resp.badRequest "No video file uploaded", Trace.empty)
  | some f =>
    match personName with
    | none => (Resp.badRequest "Person name is required", Trace.empty)
    | some p =>
      if jsTrim p = "" then (Resp.badRequest "Person name is required", Trace.empty)
      else
        let mime := if jsStartsWith f.mimetype "video/" then f.mimetype
                    else getCorrectMimeTypeMem f.originalname
        let fname := createFormattedFileName p f.originalname now
        match uploadToGoogleDrive drive fname mime true with
        | (Except.error e, tr) => (Resp.serverError e, tr)
        | (Except.ok df, tr) =>
          (Resp.okUpload df.id df.name df.webViewLink df.mimeType df.size
            (sanitize p) now.isoDate, tr)

/-- `POST /upload-video-chunked` of src/index.js: as the plain route, except
files with `size > 50 * 1024 * 1024` are answered 501 before any upload. -/
def chunkedUploadHandler (file : Option FileInfo) (personName : Option String)
    (drive : Drive) (now : Clock) : Resp × Trace :=
  match file with
  | none => (Resp.badRequest "No video file uploaded", Trace.empty)
  | some f =>
    match personName with
    | none => (Resp.badRequest "Person name is required", Trace.empty)
    | some p =>
      if jsTrim p = "" then (Resp.badRequest "Person name is required", Trace.empty)
      else if 50 * 1024 * 1024 < f.size then
        (Resp.notImplemented "Resumable upload not implemented yet"
          "Use regular upload endpoint for files under 50MB", Trace.empty)
      else
        let mime := if jsStartsWith f.mimetype "video/" then f.mimetype
                    else getCorrectMimeTypeMem f.originalname
        let fname := createFormattedFileName p f.originalname now
        match uploadToGoogleDrive drive fname mime true with
        | (Except.error e, tr) => (Resp.serverError e, tr)
        | (Except.ok df, tr) => (Resp.okChunked df.id df.name df.webViewLink, tr)

/-- `POST /upload-video/:personName` of src/unnamed/part_000 (disk storage).
The URL param is validated raw and percent-decoded (external `decode`) before
sanitization; the create and the permission grant are both awaited, so either
failure reaches the catch block, which deletes the still-present temp file and
answers 500; the success path deletes the temp file after the grant. -/
def part000UploadPersonName (decode : String → String) (personName : String)
    (file : Option FileInfo) (drive : Drive) (now : Clock) : Resp × Trace :=
  match file with
  | none => (Resp.badRequest "No video file uploaded", Trace.empty)
  | some f =>
    if jsTrim personName = "" then
      (Resp.badRequest "Person name is required in URL", Trace.empty)
    else
      match (if jsStartsWith f.mimetype "video/" then Except.ok f.mimetype
             else getCorrectMimeTypeDisk f.originalname) with
      | Except.error e => (Resp.serverError e, ⟨[], [], [], [f.path]⟩)
      | Except.ok mime =>
        let fname := sanitize (decode personName) ++ "_" ++ now.isoDate ++ "_"
          ++ hyphenTime now.localTime ++ extname f.originalname
        match drive.createResult with
        | Except.error e => (Resp.serverError e, ⟨[⟨fname, mime⟩], [], [], [f.path]⟩)
        | Except.ok df =>
          match drive.permResult with
          | Except.error e =>
            (Resp.serverError e, ⟨[⟨fname, mime⟩], [df.id], [], [f.path]⟩)
          | Except.ok _ =>
            (Resp.okSimple df.name df.webViewLink,
              ⟨[⟨fname, mime⟩], [df.id], [], [f.path]⟩)

/-- `POST /upload-video` of src/unnamed/part_000: the person name is parsed out
of the original filename (default `"Unknown"`, used only for logging — the
third component returns it), the original filename is forwarded unchanged, and
there is no missing-person-name rejection on this route. -/
def part000UploadBody (file : Option FileInfo) (drive : Drive) :
    Resp × Trace × Option String :=
  match file with
  | none => (Resp.badRequest "No video file uploaded", Trace.empty, none)
  | some f =>
    let personName := (partnershipName f.originalname).getD "Unknown"
    match (if jsStartsWith f.mimetype "video/" then Except.ok f.mimetype
           else getCorrectMimeTypeDisk f.originalname) with
    | Except.error e => (Resp.serverError e, ⟨[], [], [], [f.path]⟩, some personName)
    | Except.ok mime =>
      match drive.createResult with
      | Except.error e =>
        (Resp.serverError e, ⟨[⟨f.originalname, mime⟩], [], [], [f.path]⟩, some personName)
      | Except.ok df =>
        match drive.permResult with
        | Except.error e =>
          (Resp.serverError e,
            ⟨[⟨f.originalname, mime⟩], [df.id], [], [f.path]⟩, some personName)
        | Except.ok _ =>
          (Resp.okSimple df.name df.webViewLink,
            ⟨[⟨f.originalname, mime⟩], [df.id], [], [f.path]⟩, some personName)

/-- `PATCH /fix-video-mime/:fileId` of src/unnamed/part_000: 400 on a missing
or empty `fileName`, resolve (which may throw, reaching the catch block before
any remote call), then a metadata-only update call. -/
def part000FixMime (fileId : String) (fileName : Option String) (drive : Drive) :
    Resp × Trace :=
  match fileName with
  | none => (Resp.badRequest "fileName is required in request body", Trace.empty)
  | some fn =>
    if fn = "" then (Resp.badRequest "fileName is required in request body", Trace.empty)
    else
      match getCorrectMimeTypeDisk fn with
      | Except.error e => (Resp.serverError e, Trace.empty)
      | Except.ok m =>
        match drive.updateResult with
        | Except.error e => (Resp.serverError e, ⟨[], [], [⟨fileId, m⟩], []⟩)
        | Except.ok df =>
          (Resp.okSimple df.name df.webViewLink, ⟨[], [], [⟨fileId, m⟩], []⟩)

/-- `PATCH /fix-video-mime/:fileId` of src/index.js: same shape, but its
resolver is total (it defaults), so the update call is always issued. -/
def indexFixMime (fileId : String) (fileName : Option String) (drive : Drive) :
    Resp × Trace :=
  match fileName with
  | none => (Resp.badRequest "fileName is required in request body", Trace.empty)
  | some fn =>
    if fn = "" then (Resp.badRequest "fileName is required in request body", Trace.empty)
    else
      let m := getCorrectMimeTypeMem fn
      match drive.updateResult with
      | Except.error e => (Resp.serverError e, ⟨[], [], [⟨fileId, m⟩], []⟩)
      | Except.ok df =>
        (Resp.okFix df.id df.name df.mimeType df.webViewLink, ⟨[], [], [⟨fileId, m⟩], []⟩)

/-- A concrete remote object used by the closed evaluations. -/
def dfEx : DriveFile :=
  ⟨"id1", "stored.mp4", "link1", "video/mp4", 5⟩

/-- A Remote Store Client stub on which every operation succeeds. -/
def driveOk : Drive :=
  ⟨Except.ok dfEx, Except.ok (), Except.ok dfEx⟩

/-- A stub whose create succeeds and whose permission grant fails. -/
def drivePermFail : Drive :=
  ⟨Except.ok dfEx, Except.error "perm denied", Except.ok dfEx⟩

/-- A stub whose create-object call fails. -/
def driveCreateFail : Drive :=
  ⟨Except.error "quota exceeded", Except.ok (), Except.ok dfEx⟩

/-- The clock decomposition of 2024-01-02T03:04:05Z on a UTC-zoned server. -/
def clkEx : Clock :=
  ⟨"2024-01-02", "03:04:05"⟩

/-- A concrete parsed upload used by the closed evaluations. -/
def fEx : FileInfo :=
  ⟨"v.mp4", "video/mp4", 5, "/uploads/tmp1"⟩

/-- A parsed upload whose size is exactly the 50MB chunked-route threshold. -/
def fAtLimit : FileInfo :=
  ⟨"v.mp4", "video/mp4", 52428800, "p1"⟩

/-! ## Helper lemmas -/

/-- `noOuterWs l` says the list neither starts nor ends with a whitespace char. -/
def noOuterWs (l : List Char) : Bool :=
  l.head?.all (fun c => !isWs c) && l.getLast?.all (fun c => !isWs c)

theorem dropWhile_eq_self_of_head (p : Char → Bool) (l : List Char)
    (h : ∀ c, l.head? = some c → p c = false) : l.dropWhile p = l := by
  cases l with
  | nil => rfl
  | cons c t => simp [List.dropWhile_cons, h c rfl]

theorem trimList_eq_self_of_outer (l : List Char) (h : noOuterWs l = true) :
    trimList l = l := by
  unfold noOuterWs at h
  rw [Bool.and_eq_true] at h
  obtain ⟨h1, h2⟩ := h
  unfold trimList
  have e1 : l.dropWhile isWs = l := by
    apply dropWhile_eq_self_of_head
    intro c hc
    rw [hc] at h1
    simpa using h1
  rw [e1]
  have e2 : l.reverse.dropWhile isWs = l.reverse := by
    apply dropWhile_eq_self_of_head
    intro c hc
    rw [List.head?_reverse] at hc
    rw [hc] at h2
    simpa using h2
  rw [e2, List.reverse_reverse]

theorem trimList_eq_self_all (l : List Char) (h : ∀ c ∈ l, isWs c = false) :
    trimList l = l := by
  apply trimList_eq_self_of_outer
  unfold noOuterWs
  rw [Bool.and_eq_true]
  refine ⟨?_, ?_⟩
  · cases l with
    | nil => rfl
    | cons a t => simpa using h a (by simp)
  · rw [← List.head?_reverse]
    cases hr : l.reverse with
    | nil => rfl
    | cons a t =>
      have ha : a ∈ l := by
        rw [← List.mem_reverse, hr]
        simp
      simpa using h a ha

theorem collapseWsAux_no_ws (l : List Char) :
    ∀ b, ∀ c ∈ collapseWsAux b l, isWs c = false := by
  induction l with
  | nil => intro b c hc; simp [collapseWsAux] at hc
  | cons a t ih =>
    intro b c hc
    by_cases ha : isWs a = true
    · simp only [collapseWsAux, ha, if_true] at hc
      rcases List.mem_append.mp hc with h1 | h2
      · cases b with
        | true => simp at h1
        | false =>
          simp at h1
          subst h1
          decide
      · exact ih true c h2
    · rw [Bool.not_eq_true] at ha
      simp only [collapseWsAux, ha, Bool.false_eq_true, if_false, List.mem_cons] at hc
      rcases hc with h1 | h2
      · subst h1; exact ha
      · exact ih false c h2

theorem collapseWs_no_ws (l : List Char) : ∀ c ∈ collapseWs l, isWs c = false :=
  collapseWsAux_no_ws l false

/-- With no outer whitespace, the source's trim-remove-collapse sanitization and
the claim's remove-collapse-trim sanitization agree. -/
theorem sanitize_eq_claimSanitize (p : String) (h : noOuterWs p.toList = true) :
    sanitize p = claimSanitize p := by
  unfold sanitize claimSanitize
  rw [trimList_eq_self_of_outer p.toList h,
    trimList_eq_self_all _ (collapseWs_no_ws (removeNonAlnum p.toList))]

/-- When every character of `p` is outside the kept class, sanitization yields
the empty string. -/
theorem sanitize_eq_empty (p : String)
    (h : ∀ c ∈ p.toList, c.isAlphanum = false ∧ isWs c = false) :
    sanitize p = "" := by
  unfold sanitize
  rw [trimList_eq_self_all p.toList (fun c hc => (h c hc).2)]
  have e : removeNonAlnum p.toList = [] := by
    unfold removeNonAlnum
    rw [List.filter_eq_nil_iff]
    intro c hc
    simp [(h c hc).1, (h c hc).2]
  rw [e]
  rfl

/-! ## Claim theorems -/

/-- Claim C1: the claim says the MIME Resolver fails with an unsupported-format
error on every unrecognized extension and never silently defaults.  The
disk-storage variant does fail naming the extension, but the memory-storage
variant (src/index.js line 35) silently returns the default `video/mp4` on the
unrecognized extension `.xyz`, contradicting the claim's "never silently returns
a default content type". -/
theorem c1_unknown_extension_default :
    getCorrectMimeTypeMem "clip.xyz" = "video/mp4" ∧
    getCorrectMimeTypeDisk "clip.xyz" = Except.error "Unsupported video format: .xyz" := by
  decide

/-- Claim C2: the claim says the temp resource is released exactly once on every
exit path, including the missing-person-name validation failure.  On the
disk-storage variant's `/upload-video/:personName` route, a request with a
parsed file and a whitespace-only person name exits with 400 and an empty call
log — zero unlink calls — while the success and create-failure exits do release
the temp file exactly once. -/
theorem c2_missing_name_cleanup :
    part000UploadPersonName (fun s => s) " " (some fEx) driveOk clkEx
      = (Resp.badRequest "Person name is required in URL", Trace.empty) ∧
    (part000UploadPersonName (fun s => s) "Alice" (some fEx) driveOk clkEx).2.unlinkCalls
      = [fEx.path] ∧
    (part000UploadPersonName (fun s => s) "Alice" (some fEx) driveCreateFail clkEx).1
      = Resp.serverError "quota exceeded" ∧
    (part000UploadPersonName (fun s => s) "Alice" (some fEx) driveCreateFail clkEx).2.unlinkCalls
      = [fEx.path] := by
  decide

/-- Claim C3 counterexample: in the disk-storage variant the permission grant is
awaited without a catch, so a grant failure after a successful create yields a
500 server error, not the success the claim asserts for every upload. -/
theorem c3_grant_failure_counterexample :
    (part000UploadPersonName (fun s => s) "Alice" (some fEx) drivePermFail clkEx).1
      = Resp.serverError "perm denied" := by
  decide

/-- Claim C3 (amended): in the memory-storage variant the grant is fire-and-forget
and its failure never changes `uploadToGoogleDrive`'s successful result; in the
disk-storage variant a grant failure after a successful create fails the request
with a 500 carrying the grant error, the temp file still being released once. -/
theorem c3_grant_amended (drive : Drive) (df : DriveFile) (e : String)
    (decode : String → String) (p : String) (f : FileInfo) (now : Clock)
    (hc : drive.createResult = Except.ok df) (he : drive.permResult = Except.error e)
    (hp : jsTrim p ≠ "") (hv : jsStartsWith f.mimetype "video/" = true) :
    (∀ fn mt mp, (uploadToGoogleDrive drive fn mt mp).1 = Except.ok df) ∧
    (part000UploadPersonName decode p (some f) drive now).1 = Resp.serverError e ∧
    (part000UploadPersonName decode p (some f) drive now).2.unlinkCalls = [f.path] := by
  refine ⟨?_, ?_⟩
  · intro fn mt mp
    simp [uploadToGoogleDrive, hc]
    cases mp <;> simp
  · simp [part000UploadPersonName, hp, hv, hc, he]

/-- Witness for c3_grant_amended at a concrete grant-failing stub. -/
theorem c3_grant_amended_witness :
    (∀ fn mt mp, (uploadToGoogleDrive drivePermFail fn mt mp).1 = Except.ok dfEx) ∧
    (part000UploadPersonName (fun s => s) "Bob" (some fEx) drivePermFail clkEx).1
      = Resp.serverError "perm denied" ∧
    (part000UploadPersonName (fun s => s) "Bob" (some fEx) drivePermFail clkEx).2.unlinkCalls
      = [fEx.path] :=
  c3_grant_amended drivePermFail dfEx "perm denied" (fun s => s) "Bob" fEx clkEx
    rfl rfl (by decide) (by decide)

/-- Claim C4: the claim says the Retroactive Fixer rejects unrecognized
extensions without calling the remote client.  The disk-storage variant does
(conjuncts one and two), but the memory-storage variant resolves `x.xyz` to the
default `video/mp4` and issues the metadata update call anyway (conjunct three),
contradicting the claim. -/
theorem c4_fixer_behavior :
    part000FixMime "f1" (some "x.webm") driveOk
      = (Resp.okSimple "stored.mp4" "link1", ⟨[], [], [⟨"f1", "video/webm"⟩], []⟩) ∧
    part000FixMime "f1" (some "x.xyz") driveOk
      = (Resp.serverError "Unsupported video format: .xyz", Trace.empty) ∧
    indexFixMime "f1" (some "x.xyz") driveOk
      = (Resp.okFix "id1" "stored.mp4" "video/mp4" "link1",
         ⟨[], [], [⟨"f1", "video/mp4"⟩], []⟩) := by
  decide

/-- Claim C5 counterexample: the claim's sanitization order
(remove, then collapse, then trim) differs from the code's
(trim, then remove, then collapse) on a person name with leading whitespace:
for personName " Jane" the code yields "Jane_..." while the claimed pipeline
yields "_Jane_...". -/
theorem c5_sanitize_order_counterexample :
    createFormattedFileName " Jane" "v.mp4" clkEx
      ≠ claimFormattedFileName " Jane" "v.mp4" clkEx := by
  decide

/-- Claim C5 (amended): the formatter sanitizes by trimming first, then removing
characters outside the letters/digits/whitespace class, then collapsing
whitespace runs to single underscores — agreeing with the claimed
remove-collapse-trim order whenever personName has no leading or trailing
whitespace — and the claimed example value holds. -/
theorem c5_formatter_amended (p : String) (h : noOuterWs p.toList = true) :
    sanitize p = claimSanitize p ∧
    createFormattedFileName "Jane D.O.E!" "orig.MOV" clkEx
      = "Jane_DOE_2024-01-02_03-04-05.MOV" :=
  ⟨sanitize_eq_claimSanitize p h, by decide⟩

/-- Witness for c5_formatter_amended at a concrete person name. -/
theorem c5_formatter_amended_witness :
    sanitize "Jane Doe" = claimSanitize "Jane Doe" ∧
    createFormattedFileName "Jane D.O.E!" "orig.MOV" clkEx
      = "Jane_DOE_2024-01-02_03-04-05.MOV" :=
  c5_formatter_amended "Jane Doe" (by decide)

/-- Claim C6: on uploads the stored content type is the declared type verbatim
when it has the `video/` prefix, and otherwise the MIME Resolver's result on the
original filename — the request failing (500, no create call) when the
disk-storage variant's resolver fails; in the memory-storage variant it is the
same ternary with that variant's (total) resolver. -/
theorem c6_content_type_resolution (decode : String → String) (p : String)
    (f : FileInfo) (drive : Drive) (now : Clock) (hp : jsTrim p ≠ "") :
    (jsStartsWith f.mimetype "video/" = true →
      ∀ m ∈ (part000UploadPersonName decode p (some f) drive now).2.createCalls,
        m.mimeType = f.mimetype) ∧
    (jsStartsWith f.mimetype "video/" = false →
      (∀ mt, getCorrectMimeTypeDisk f.originalname = Except.ok mt →
        ∀ m ∈ (part000UploadPersonName decode p (some f) drive now).2.createCalls,
          m.mimeType = mt) ∧
      (∀ e, getCorrectMimeTypeDisk f.originalname = Except.error e →
        (part000UploadPersonName decode p (some f) drive now).1 = Resp.serverError e ∧
        (part000UploadPersonName decode p (some f) drive now).2.createCalls = [])) ∧
    (∀ m ∈ (indexUploadHandler (some f) (some p) drive now).2.createCalls,
      m.mimeType = (if jsStartsWith f.mimetype "video/" then f.mimetype
                    else getCorrectMimeTypeMem f.originalname)) := by
  refine ⟨?_, ?_, ?_⟩
  · intro hv m hm
    simp only [part000UploadPersonName, hp, hv] at hm
    simp at hm
    rcases hc : drive.createResult with e | df <;> rw [hc] at hm
    · simp at hm
      rw [hm]
    · rcases hpm : drive.permResult with e2 | u <;> rw [hpm] at hm <;> simp at hm <;>
        rw [hm]
  · intro hv
    refine ⟨?_, ?_⟩
    · intro mt hok m hm
      simp only [part000UploadPersonName, hp, hv] at hm
      simp [hok] at hm
      rcases hc : drive.createResult with e | df <;> rw [hc] at hm
      · simp at hm
        rw [hm]
      · rcases hpm : drive.permResult with e2 | u <;> rw [hpm] at hm <;> simp at hm <;>
          rw [hm]
    · intro e he
      simp [part000UploadPersonName, hp, hv, he]
  · intro m hm
    simp only [indexUploadHandler, hp, uploadToGoogleDrive] at hm
    simp at hm
    rcases hc : drive.createResult with e | df <;> rw [hc] at hm <;> simp at hm <;> rw [hm]

/-- Witness for c6_content_type_resolution at a concrete upload. -/
theorem c6_content_type_resolution_witness :
    (jsStartsWith fEx.mimetype "video/" = true →
      ∀ m ∈ (part000UploadPersonName (fun s => s) "Cara" (some fEx) driveOk clkEx).2.createCalls,
        m.mimeType = fEx.mimetype) ∧
    (jsStartsWith fEx.mimetype "video/" = false →
      (∀ mt, getCorrectMimeTypeDisk fEx.originalname = Except.ok mt →
        ∀ m ∈ (part000UploadPersonName (fun s => s) "Cara" (some fEx) driveOk clkEx).2.createCalls,
          m.mimeType = mt) ∧
      (∀ e, getCorrectMimeTypeDisk fEx.originalname = Except.error e →
        (part000UploadPersonName (fun s => s) "Cara" (some fEx) driveOk clkEx).1
          = Resp.serverError e ∧
        (part000UploadPersonName (fun s => s) "Cara" (some fEx) driveOk clkEx).2.createCalls
          = [])) ∧
    (∀ m ∈ (indexUploadHandler (some fEx) (some "Cara") driveOk clkEx).2.createCalls,
      m.mimeType = (if jsStartsWith fEx.mimetype "video/" then fEx.mimetype
                    else getCorrectMimeTypeMem fEx.originalname)) :=
  c6_content_type_resolution (fun s => s) "Cara" fEx driveOk clkEx (by decide)

/-- Claim C7: for every filename whose lower-cased extension is in the fixed
table, both variants of the resolver return exactly the mapped type; the table
is exactly the eight claimed entries, and resolve("clip.MP4") is "video/mp4". -/
theorem c7_resolver_recognized (name m : String)
    (h : mimeTypes (lowerStr (extname name)) = some m) :
    (getCorrectMimeTypeDisk name = Except.ok m ∧ getCorrectMimeTypeMem name = m) ∧
    (mimeTypes ".mp4" = some "video/mp4" ∧ mimeTypes ".webm" = some "video/webm" ∧
     mimeTypes ".mkv" = some "video/x-matroska" ∧ mimeTypes ".avi" = some "video/x-msvideo" ∧
     mimeTypes ".mov" = some "video/quicktime" ∧ mimeTypes ".wmv" = some "video/x-ms-wmv" ∧
     mimeTypes ".flv" = some "video/x-flv" ∧ mimeTypes ".m4v" = some "video/x-m4v") ∧
    getCorrectMimeTypeMem "clip.MP4" = "video/mp4" ∧
    getCorrectMimeTypeDisk "clip.MP4" = Except.ok "video/mp4" := by
  refine ⟨⟨?_, ?_⟩, by decide, by decide, by decide⟩
  · simp [getCorrectMimeTypeDisk, h]
  · simp [getCorrectMimeTypeMem, h]

/-- Witness for c7_resolver_recognized at a concrete recognized filename. -/
theorem c7_resolver_recognized_witness :
    (getCorrectMimeTypeDisk "a.webm" = Except.ok "video/webm" ∧
     getCorrectMimeTypeMem "a.webm" = "video/webm") ∧
    (mimeTypes ".mp4" = some "video/mp4" ∧ mimeTypes ".webm" = some "video/webm" ∧
     mimeTypes ".mkv" = some "video/x-matroska" ∧ mimeTypes ".avi" = some "video/x-msvideo" ∧
     mimeTypes ".mov" = some "video/quicktime" ∧ mimeTypes ".wmv" = some "video/x-ms-wmv" ∧
     mimeTypes ".flv" = some "video/x-flv" ∧ mimeTypes ".m4v" = some "video/x-m4v") ∧
    getCorrectMimeTypeMem "clip.MP4" = "video/mp4" ∧
    getCorrectMimeTypeDisk "clip.MP4" = Except.ok "video/mp4" :=
  c7_resolver_recognized "a.webm" "video/webm" (by decide)

/-- Claim C8 counterexample: a file of exactly 50MB (52428800 bytes) — "at the
threshold" — is not answered 501 as the claim requires; it follows the normal
path and uploads. -/
theorem c8_threshold_counterexample :
    chunkedUploadHandler (some ⟨"v.mp4", "video/mp4", 52428800, "p1"⟩) (some "Alice")
        driveOk clkEx
      = (Resp.okChunked "id1" "stored.mp4" "link1",
         ⟨[⟨"Alice_2024-01-02_03-04-05.mp4", "video/mp4"⟩], ["id1"], [], []⟩) := by
  decide

/-- Claim C8 (amended): on the chunked route, files of size at most the 50MB
threshold follow the normal upload path (a create call is attempted, never a
501), and files strictly above the threshold are answered 501 Not Implemented
with the suggestion to use the non-chunked route, without any create call. -/
theorem c8_chunked_amended (f : FileInfo) (p : String) (drive : Drive) (now : Clock)
    (hp : jsTrim p ≠ "") :
    (f.size ≤ 50 * 1024 * 1024 →
      (chunkedUploadHandler (some f) (some p) drive now).2.createCalls ≠ [] ∧
      ∀ e s, (chunkedUploadHandler (some f) (some p) drive now).1
        ≠ Resp.notImplemented e s) ∧
    (50 * 1024 * 1024 < f.size →
      (chunkedUploadHandler (some f) (some p) drive now).1
        = Resp.notImplemented "Resumable upload not implemented yet"
            "Use regular upload endpoint for files under 50MB" ∧
      (chunkedUploadHandler (some f) (some p) drive now).2.createCalls = []) := by
  constructor
  · intro hs
    simp only [chunkedUploadHandler, hp, if_neg (Nat.not_lt.mpr hs)]
    simp [uploadToGoogleDrive]
    rcases hc : drive.createResult with e | df <;> simp
  · intro hs
    simp [chunkedUploadHandler, hp, hs, Trace.empty]

/-- Witness for c8_chunked_amended at a concrete at-threshold upload. -/
theorem c8_chunked_amended_witness :
    (fAtLimit.size ≤ 50 * 1024 * 1024 →
      (chunkedUploadHandler (some fAtLimit) (some "Dana") driveOk clkEx).2.createCalls ≠ [] ∧
      ∀ e s, (chunkedUploadHandler (some fAtLimit) (some "Dana") driveOk clkEx).1
        ≠ Resp.notImplemented e s) ∧
    (50 * 1024 * 1024 < fAtLimit.size →
      (chunkedUploadHandler (some fAtLimit) (some "Dana") driveOk clkEx).1
        = Resp.notImplemented "Resumable upload not implemented yet"
            "Use regular upload endpoint for files under 50MB" ∧
      (chunkedUploadHandler (some fAtLimit) (some "Dana") driveOk clkEx).2.createCalls = []) :=
  c8_chunked_amended fAtLimit "Dana" driveOk clkEx (by decide)

/-- Claim C9: on the disk-storage variant's body-field route, when the original
filename does not match the PartnershipDeclaration pattern the person name
defaults to "Unknown", the route never answers 400 once a file parsed, and the
upload proceeds (a create call is attempted when the declared type is a video). -/
theorem c9_person_name_default (f : FileInfo) (drive : Drive)
    (hn : partnershipName f.originalname = none) :
    (part000UploadBody (some f) drive).2.2 = some "Unknown" ∧
    (∀ m, (part000UploadBody (some f) drive).1 ≠ Resp.badRequest m) ∧
    (jsStartsWith f.mimetype "video/" = true →
      (part000UploadBody (some f) drive).2.1.createCalls ≠ []) := by
  refine ⟨?_, ?_, ?_⟩
  · simp only [part000UploadBody, hn]
    rcases hmm : (if jsStartsWith f.mimetype "video/" then Except.ok f.mimetype
        else getCorrectMimeTypeDisk f.originalname) with e | mi <;> simp [hmm]
    rcases hc : drive.createResult with e | df <;> simp
    rcases hpm : drive.permResult with e2 | u <;> simp
  · intro m
    simp only [part000UploadBody, hn]
    rcases hmm : (if jsStartsWith f.mimetype "video/" then Except.ok f.mimetype
        else getCorrectMimeTypeDisk f.originalname) with e | mi <;> simp [hmm]
    rcases hc : drive.createResult with e | df <;> simp
    rcases hpm : drive.permResult with e2 | u <;> simp
  · intro hv
    simp only [part000UploadBody, hn, hv]
    simp
    rcases hc : drive.createResult with e | df <;> simp
    rcases hpm : drive.permResult with e2 | u <;> simp

/-- Witness for c9_person_name_default at a non-matching filename. -/
theorem c9_person_name_default_witness :
    (part000UploadBody (some fEx) driveOk).2.2 = some "Unknown" ∧
    (∀ m, (part000UploadBody (some fEx) driveOk).1 ≠ Resp.badRequest m) ∧
    (jsStartsWith fEx.mimetype "video/" = true →
      (part000UploadBody (some fEx) driveOk).2.1.createCalls ≠ []) :=
  c9_person_name_default fEx driveOk (by decide)

/-- Claim C10: a person name that is non-empty after trimming but contains no
letters, digits or whitespace passes the missing-name validation (the handler
never answers 400), sanitizes to the empty string, and the canonical filename
begins with an underscore. -/
theorem c10_symbol_only_name (p : String) (h1 : jsTrim p ≠ "")
    (h2 : ∀ c ∈ p.toList, c.isAlphanum = false ∧ isWs c = false) :
    missingName (some p) = false ∧
    sanitize p = "" ∧
    (∀ f drive now m, (indexUploadHandler (some f) (some p) drive now).1
      ≠ Resp.badRequest m) ∧
    (∀ orig now, (createFormattedFileName p orig now).toList.head? = some '_') := by
  have hsan := sanitize_eq_empty p h2
  refine ⟨?_, hsan, ?_, ?_⟩
  · simp [missingName, h1]
  · intro f drive now m
    simp only [indexUploadHandler, h1, uploadToGoogleDrive]
    simp
    rcases hc : drive.createResult with e | df <;> simp
  · intro orig now
    unfold createFormattedFileName
    rw [hsan]
    simp [String.toList]

/-- Witness for c10_symbol_only_name at the person name "!!!". -/
theorem c10_symbol_only_name_witness :
    missingName (some "!!!") = false ∧
    sanitize "!!!" = "" ∧
    (∀ f drive now m, (indexUploadHandler (some f) (some "!!!") drive now).1
      ≠ Resp.badRequest m) ∧
    (∀ orig now, (createFormattedFileName "!!!" orig now).toList.head? = some '_') :=
  c10_symbol_only_name "!!!" (by decide) (by decide)

end VideoAgreement
